import Mathlib

/-!
# Verification of the NoFeds chat application core (src/page.tsx)

Shallow embedding of the cryptographic messaging layer (`EncryptionManager`),
the replicated state synchronization layer (`RealTimeSync`) and the
coordinating handlers of `ChatApp`, together with proofs of the spec claims.

Modelling conventions:
* Bytes and char codes are `Nat`; byte strings are `List Nat`.
* Randomness (`crypto.subtle.generateKey`, `crypto.getRandomValues`) is made
  explicit: each call site receives the drawn fresh value as a parameter.
* The Web Crypto AES-GCM primitive is modelled as an ideal AEAD: the
  ciphertext is a keystream-shifted copy of the plaintext followed by an
  authentication tag bound to the key, the nonce and the ciphertext body;
  decryption checks the tag and fails (returns `none`, the model of a thrown
  `OperationError`) when it does not match.
* `btoa`/`atob` (base64 transport encoding) are modelled as an explicit
  injective encoding of a byte list with a left inverse.
* JavaScript exceptions thrown by `encryptMessage`/`decryptMessage` are
  modelled with `Except CryptoError`.
-/

namespace NoFeds

/-- Association-list model of a JS `Map` / plain-object lookup: first binding
for the key wins (there is at most one binding per key under `mapSet`). -/
def lookupAssoc {α : Type} : List (String × α) → String → Option α
  | [], _ => none
  | (k', v') :: rest, k => if k' = k then some v' else lookupAssoc rest k

/-- Model of `Map.prototype.set`: replace the existing binding in place, or append. -/
def mapSet {α : Type} : List (String × α) → String → α → List (String × α)
  | [], k, v => [(k, v)]
  | (k', v') :: rest, k, v =>
    if k' = k then (k, v) :: rest else (k', v') :: mapSet rest k v

/-- Model of `TextEncoder().encode`: a string as its sequence of char codes. -/
def textEncoder (s : String) : List Nat :=
  s.data.map Char.toNat

/-- Model of `TextDecoder().decode`: char codes back to a string. -/
def textDecoder (l : List Nat) : String :=
  String.mk (l.map Char.ofNat)

/-- Model of `btoa(String.fromCharCode(...bytes))`: each byte becomes two
transport symbols (an injective encoding with left inverse `atob`). -/
def btoa (l : List Nat) : List Nat :=
  l.flatMap (fun b => [b / 64, b % 64])

/-- Model of byte recovery from the transport encoding
(`atob(s).split("").map(c => c.charCodeAt(0))`). -/
def atob : List Nat → List Nat
  | [] => []
  | [x] => [x]
  | a :: b :: rest => (64 * a + b) :: atob rest

/-- Tag input mix of the ideal AEAD model (stands for the GHASH/CTR tag
computation of AES-GCM; its only load-bearing property is that the tag is
bound to the key by cancellative addition). -/
def ghash (iv body : List Nat) : Nat :=
  (iv ++ body).foldl (fun a b => 2 * a + b) 0

/-- Model of `crypto.subtle.encrypt({name: "AES-GCM", iv}, key, data)`:
returns ciphertext body followed by the authentication tag. -/
def subtleEncrypt (key : Nat) (iv data : List Nat) : List Nat :=
  data.map (fun b => b + key) ++ [key + ghash iv (data.map (fun b => b + key))]

/-- Model of `crypto.subtle.decrypt({name: "AES-GCM", iv}, key, ct)`:
`none` models the thrown `OperationError` on tag mismatch. -/
def subtleDecrypt (key : Nat) (iv ct : List Nat) : Option (List Nat) :=
  match ct.reverse with
  | [] => none
  | tag :: rbody =>
    let body := rbody.reverse
    if tag = key + ghash iv body then some (body.map (fun b => b - key)) else none

/-- Errors thrown by `EncryptionManager.encryptMessage` / `decryptMessage`. -/
inductive CryptoError where
  | NoRoomKey
  | AuthenticationFailure
  deriving DecidableEq, Repr

/-- State of an `EncryptionManager` instance.  `keyPair` models the RSA-OAEP
identity key pair (a key handle), `roomKeys` the `Map<string, CryptoKey>` of
AES-GCM room keys (key handles modelled as `Nat`). -/
structure EncryptionManager where
  keyPair : Option Nat
  roomKeys : List (String × Nat)
  deriving DecidableEq, Repr

/-- Method `EncryptionManager.generateRoomKey(roomId)`: generates a fresh AES-GCM
key (`freshKey` is the value drawn from `crypto.subtle.generateKey`), stores
it under `roomId` via `Map.set`, and returns it. -/
def generateRoomKey (m : EncryptionManager) (freshKey : Nat) (roomId : String) :
    Nat × EncryptionManager :=
  (freshKey, { m with roomKeys := mapSet m.roomKeys roomId freshKey })

/-- Method `EncryptionManager.encryptMessage(message, roomId)`: looks up the room
key (throwing `No room key found` if absent), encodes the message, draws a
12-byte random `iv` (passed explicitly), AEAD-encrypts, and returns the
base64 encoding of `iv ‖ ciphertext`. -/
def encryptMessage (m : EncryptionManager) (iv : List Nat) (message : String)
    (roomId : String) : Except CryptoError (List Nat) :=
  match lookupAssoc m.roomKeys roomId with
  | none => .error .NoRoomKey
  | some roomKey =>
    let data := textEncoder message
    let encrypted := subtleEncrypt roomKey iv data
    .ok (btoa (iv ++ encrypted))

/-- Method `EncryptionManager.decryptMessage(encryptedMessage, roomId)`: looks up
the room key (throwing `No room key found` if absent), decodes the envelope,
splits the first 12 bytes off as the iv, and AEAD-decrypts (a tag mismatch
throws, modelled as `AuthenticationFailure`). -/
def decryptMessage (m : EncryptionManager) (encryptedMessage : List Nat)
    (roomId : String) : Except CryptoError String :=
  match lookupAssoc m.roomKeys roomId with
  | none => .error .NoRoomKey
  | some roomKey =>
    let combined := atob encryptedMessage
    let iv := combined.take 12
    let encrypted := combined.drop 12
    match subtleDecrypt roomKey iv encrypted with
    | none => .error .AuthenticationFailure
    | some decrypted => .ok (textDecoder decrypted)

/- ## Shared application data model (interfaces of src/page.tsx) -/

/-- Field `ChatMessage.type` (`"user" | "system"`; `joinRoom` also produces
`"join"`). -/
inductive MessageType where
  | user
  | system
  | join
  deriving DecidableEq, Repr

/-- Field `User.status`. -/
inductive UserStatus where
  | online
  | away
  | busy
  deriving DecidableEq, Repr

/-- The `ChatMessage` interface.  `content` is the char-code sequence of the
content string (the base64 envelope when `encrypted` is true); `timestamp`
is an epoch number. -/
structure ChatMessage where
  id : String
  content : List Nat
  sender : String
  senderId : String
  timestamp : Nat
  type : MessageType
  encrypted : Bool
  deriving DecidableEq, Repr

/-- The `User` interface. -/
structure User where
  id : String
  nickname : String
  status : UserStatus
  joinedAt : Nat
  avatar : Option String
  statusMessage : Option String
  hasAccount : Bool
  deriving DecidableEq, Repr

/-- The `Account` interface (`isTemporary?: boolean` modelled as `Bool`,
absent = `false`). -/
structure Account where
  id : String
  nickname : String
  password : String
  createdAt : Nat
  avatar : Option String
  isTemporary : Bool
  deriving DecidableEq, Repr

/-- The `Room` interface. -/
structure Room where
  id : String
  name : String
  userCount : Nat
  hasPassword : Bool
  password : Option String
  description : Option String
  createdBy : String
  deriving DecidableEq, Repr

/-- The `AppData` snapshot: the unit of persistence and propagation.
`messages` is the `{ [roomId]: ChatMessage[] }` object as an association
list. -/
structure AppData where
  users : List User
  rooms : List Room
  messages : List (String × List ChatMessage)
  accounts : List Account
  deriving DecidableEq, Repr

/-- The empty snapshot `{ users: [], rooms: [], messages: {}, accounts: [] }`
used as the `loadData() || ...` fallback. -/
def emptyAppData : AppData :=
  { users := [], rooms := [], messages := [], accounts := [] }

/- ## RealTimeSync (replicated state store) -/

/-- Messages posted on the `nofeds-sync` `BroadcastChannel`. -/
inductive BusMessage where
  | dataUpdate (data : AppData)
  | update (key : String) (data : AppData)
  deriving DecidableEq, Repr

/-- State of the `BroadcastChannel` held by a `RealTimeSync`: whether
`close()` has been called on it, and whether `onUpdate` registered the
message listener. -/
structure Channel where
  closed : Bool
  hasListener : Bool
  deriving DecidableEq, Repr

/-- A `RealTimeSync` instance: `channel` is `null` when the constructor's
`new BroadcastChannel` threw. -/
structure RealTimeSync where
  channel : Option Channel
  deriving DecidableEq, Repr

/-- The world observable outside one `RealTimeSync` call: the
`localStorage` slot under the fixed key `nofeds-app-data`, and the sequence
of messages successfully posted on the bus. -/
structure World where
  storage : Option String
  bus : List BusMessage
  deriving DecidableEq, Repr

/-- Method `RealTimeSync.saveData(data)`.  `serialize` models `JSON.stringify`;
`storageOk` tells whether `localStorage.setItem` succeeds (when it throws,
the `catch` swallows the error, so nothing at all is posted and the world
is unchanged).  Posting on a closed channel throws `InvalidStateError`,
also swallowed by the same `catch`, after the storage write already
happened. -/
def saveData (sync : RealTimeSync) (serialize : AppData → String)
    (storageOk : Bool) (world : World) (data : AppData) : World :=
  if storageOk then
    let world1 : World := { world with storage := some (serialize data) }
    match sync.channel with
    | none => world1
    | some ch =>
      if ch.closed then world1
      else { world1 with bus := world1.bus ++ [BusMessage.dataUpdate data] }
  else world

/-- Method `RealTimeSync.loadData()`.  `decode` models `JSON.parse` restricted to
the snapshot shape (`none` models a thrown `SyntaxError`, caught and turned
into `null`). -/
def loadData (decode : String → Option AppData) (storage : Option String) :
    Option AppData :=
  match storage with
  | none => none
  | some stored =>
    match decode stored with
    | none => none
    | some result => some result

/-- Method `RealTimeSync.onUpdate(callback)`: returns immediately when the channel
is `null`, otherwise adds the message listener (`addEventListener` works on
a closed channel without error, but such a channel receives nothing). -/
def onUpdate (sync : RealTimeSync) : RealTimeSync :=
  match sync.channel with
  | none => sync
  | some ch => { channel := some { ch with hasListener := true } }

/-- Method `RealTimeSync.close()`: closes the channel if there is one.  The
`channel` field itself is *not* reset to `null`. -/
def close (sync : RealTimeSync) : RealTimeSync :=
  match sync.channel with
  | none => sync
  | some ch => { channel := some { ch with closed := true } }

/-- Delivery of one bus message to a `RealTimeSync`: the registered
`onUpdate` callback is invoked (with the carried snapshot) exactly when the
channel exists, is still open, has the listener, and the message is a
`data-update`; otherwise no callback runs. -/
def deliver (sync : RealTimeSync) (msg : BusMessage) : Option AppData :=
  match sync.channel with
  | none => none
  | some ch =>
    if ch.closed then none
    else if ch.hasListener then
      match msg with
      | .dataUpdate d => some d
      | .update _ _ => none
    else none

/- ## ChatApp coordinator handlers -/

/-- The slice of `ChatApp` React state touched by the handlers under
verification. -/
structure LocalState where
  onlineUsers : List User
  chatRooms : List Room
  messages : List ChatMessage
  currentAccount : Option Account
  deriving DecidableEq, Repr

/-- The `syncManager.onUpdate` callback of the main `useEffect`: on a
foreign snapshot it sets users and rooms from the snapshot, replaces the
message list of the selected room (when one is selected) by the snapshot's
list (`data.messages[selectedRoom] || []`), and refreshes `currentAccount`
by nickname when `nickname` is non-empty. -/
def applyDataUpdate (selectedRoom : Option String) (nickname : String)
    (prev : LocalState) (data : AppData) : LocalState :=
  { onlineUsers := data.users
    chatRooms := data.rooms
    messages :=
      match selectedRoom with
      | some room => (lookupAssoc data.messages room).getD []
      | none => prev.messages
    currentAccount :=
      if nickname = "" then prev.currentAccount
      else data.accounts.find? (fun acc => acc.nickname = nickname) }

/-- The `handleBeforeUnload` cleanup: when the current account is temporary,
re-load the stored snapshot, save it back with that account filtered out of
`accounts`, then save again with `users` replaced by the *local*
`onlineUsers` list minus the current user.  Returns the final stored
snapshot (the storage layer is applied at the snapshot level here; `saveData`
round-trips through serialization, which is C8's concern). -/
def handleBeforeUnload (currentAccount : Option Account) (currentUserId : String)
    (onlineUsers : List User) (stored : Option AppData) : Option AppData :=
  match currentAccount with
  | none => stored
  | some acc =>
    if acc.isTemporary then
      let stored1 :=
        match stored with
        | none => none
        | some sd =>
          some { sd with accounts := sd.accounts.filter (fun a => a.id ≠ acc.id) }
      let updatedUsers := onlineUsers.filter (fun u => u.id ≠ currentUserId)
      let currentData := stored1.getD emptyAppData
      some { currentData with users := updatedUsers }
    else stored

/-- The fixed placeholder rendered when decryption fails. -/
def decryptionFailedPlaceholder : String :=
  "[Encrypted message - decryption failed]"

/-- Handler `getDisplayContent(message)`: plain content when the message is not
encrypted or no room is selected; otherwise decrypt, rendering the fixed
placeholder when decryption throws. -/
def getDisplayContent (m : EncryptionManager) (selectedRoom : Option String)
    (message : ChatMessage) : String :=
  match selectedRoom with
  | none => textDecoder message.content
  | some room =>
    if message.encrypted then
      match decryptMessage m message.content room with
      | .ok p => p
      | .error _ => decryptionFailedPlaceholder
    else textDecoder message.content

/- ## Basic lemmas about the transport and cipher models -/

theorem atob_btoa (l : List Nat) : atob (btoa l) = l := by
  induction l with
  | nil => rfl
  | cons b rest ih =>
    show atob (b / 64 :: b % 64 :: btoa rest) = b :: rest
    simp only [atob, ih, List.cons.injEq, and_true]
    omega

theorem textDecoder_textEncoder (s : String) : textDecoder (textEncoder s) = s := by
  cases s with
  | mk data =>
    simp only [textDecoder, textEncoder, List.map_map]
    congr 1
    induction data with
    | nil => rfl
    | cons c cs ih => simp [ih, Char.ofNat_toNat]

theorem subtleDecrypt_subtleEncrypt (key : Nat) (iv data : List Nat) :
    subtleDecrypt key iv (subtleEncrypt key iv data) = some data := by
  have hmap : ∀ l : List Nat, (l.map (fun b => b + key)).map (fun b => b - key) = l := by
    intro l
    induction l with
    | nil => rfl
    | cons b rest ih => simp [ih]
  simp only [subtleDecrypt, subtleEncrypt, List.reverse_append, List.reverse_cons,
    List.reverse_nil, List.nil_append, List.cons_append, List.reverse_reverse,
    if_pos rfl]
  simp [hmap]

theorem subtleDecrypt_wrong_key (key key' : Nat) (iv data : List Nat)
    (h : key ≠ key') :
    subtleDecrypt key' iv (subtleEncrypt key iv data) = none := by
  simp only [subtleDecrypt, subtleEncrypt, List.reverse_append, List.reverse_cons,
    List.reverse_nil, List.nil_append, List.cons_append, List.reverse_reverse]
  rw [if_neg]
  omega

theorem btoa_injective {x y : List Nat} (h : btoa x = btoa y) : x = y := by
  have := congrArg atob h
  rwa [atob_btoa, atob_btoa] at this

theorem lookupAssoc_mapSet_self {α : Type} (m : List (String × α)) (k : String)
    (v : α) : lookupAssoc (mapSet m k v) k = some v := by
  induction m with
  | nil => simp [mapSet, lookupAssoc]
  | cons hd tl ih =>
    cases hd with
    | mk k' v' =>
      by_cases hk : k' = k
      · simp [mapSet, lookupAssoc, hk]
      · simp only [mapSet, lookupAssoc, if_neg hk, ih]

/-- Both halves of the encrypt/decrypt pipeline on an established key: the
envelope `encryptMessage` produces, and the fact that `decryptMessage`
recovers the plaintext from it on the same instance. -/
theorem roundtrip_aux (m : EncryptionManager) (roomId : String) (k : Nat)
    (h : lookupAssoc m.roomKeys roomId = some k) (iv : List Nat)
    (hiv : iv.length = 12) (p : String) :
    encryptMessage m iv p roomId = .ok (btoa (iv ++ subtleEncrypt k iv (textEncoder p))) ∧
    decryptMessage m (btoa (iv ++ subtleEncrypt k iv (textEncoder p))) roomId = .ok p := by
  constructor
  · simp [encryptMessage, h]
  · have htake : (iv ++ subtleEncrypt k iv (textEncoder p)).take 12 = iv := by
      rw [← hiv]; exact List.take_left iv _
    have hdrop : (iv ++ subtleEncrypt k iv (textEncoder p)).drop 12 = subtleEncrypt k iv (textEncoder p) := by
      rw [← hiv]; exact List.drop_left iv _
    simp only [decryptMessage, h, atob_btoa, htake, hdrop,
      subtleDecrypt_subtleEncrypt, textDecoder_textEncoder]

/-- C1 (counterexample): a key (5) is already stored for room `"r"`, yet
`generateRoomKey` draws a fresh key (9, the value `crypto.subtle.generateKey`
returns — always a new key object, distinct from the stored one) and
returns/stores *that*, not the previously stored key; and a ciphertext
produced after the first call no longer decrypts after the second call, so
calling it twice does not return a key usable to decrypt ciphertext produced
after either call. -/
theorem generateRoomKey_not_idempotent :
    lookupAssoc (EncryptionManager.mk none [("r", 5)]).roomKeys "r" = some 5 ∧
    (generateRoomKey (EncryptionManager.mk none [("r", 5)]) 9 "r").1 ≠ 5 ∧
    lookupAssoc (generateRoomKey (EncryptionManager.mk none [("r", 5)]) 9 "r").2.roomKeys "r" ≠ some 5 ∧
    decryptMessage (generateRoomKey (EncryptionManager.mk none [("r", 5)]) 9 "r").2
      (btoa ([0, 0, 0, 0, 0, 0, 0, 0, 0, 0, 0, 0] ++
        subtleEncrypt 5 [0, 0, 0, 0, 0, 0, 0, 0, 0, 0, 0, 0] (textEncoder "hi"))) "r"
      = .error .AuthenticationFailure := by
  refine ⟨rfl, by decide, by decide, ?_⟩
  rfl

/-- C1 (amended): `generateRoomKey(roomId)` unconditionally generates a
fresh key and stores it under `roomId`, replacing any previously stored key;
the key it returns is exactly the key now stored, so ciphertext produced
after the most recent call decrypts correctly on the same instance (but
ciphertext from before a regeneration does not, see the counterexample). -/
theorem generateRoomKey_stores_fresh (m : EncryptionManager) (freshKey : Nat)
    (roomId : String) (iv : List Nat) (hiv : iv.length = 12) (p : String) :
    (generateRoomKey m freshKey roomId).1 = freshKey ∧
    lookupAssoc (generateRoomKey m freshKey roomId).2.roomKeys roomId = some freshKey ∧
    decryptMessage (generateRoomKey m freshKey roomId).2
      (btoa (iv ++ subtleEncrypt freshKey iv (textEncoder p))) roomId = .ok p := by
  refine ⟨rfl, lookupAssoc_mapSet_self m.roomKeys roomId freshKey, ?_⟩
  exact (roundtrip_aux _ roomId freshKey
    (lookupAssoc_mapSet_self m.roomKeys roomId freshKey) iv hiv p).2

theorem generateRoomKey_stores_fresh_witness :
    ([0, 0, 0, 0, 0, 0, 0, 0, 0, 0, 0, 0] : List Nat).length = 12 ∧
    ((generateRoomKey (EncryptionManager.mk none []) 5 "r").1 = 5 ∧
      lookupAssoc (generateRoomKey (EncryptionManager.mk none []) 5 "r").2.roomKeys "r" = some 5 ∧
      decryptMessage (generateRoomKey (EncryptionManager.mk none []) 5 "r").2
        (btoa ([0, 0, 0, 0, 0, 0, 0, 0, 0, 0, 0, 0] ++
          subtleEncrypt 5 [0, 0, 0, 0, 0, 0, 0, 0, 0, 0, 0, 0] (textEncoder "hi"))) "r"
        = .ok "hi") :=
  ⟨by decide,
    generateRoomKey_stores_fresh (EncryptionManager.mk none []) 5 "r"
      [0, 0, 0, 0, 0, 0, 0, 0, 0, 0, 0, 0] (by decide) "hi"⟩

/-- C2: encrypt-then-decrypt round trip — for every plaintext string and
every roomId whose key is established in a given `EncryptionManager`
instance, decrypting the envelope `encryptMessage` produced (on the same
instance) returns the original plaintext. -/
theorem encrypt_decrypt_roundtrip (m : EncryptionManager) (roomId : String)
    (k : Nat) (h : lookupAssoc m.roomKeys roomId = some k) (p : String)
    (iv : List Nat) (hiv : iv.length = 12) (env : List Nat)
    (henc : encryptMessage m iv p roomId = .ok env) :
    decryptMessage m env roomId = .ok p := by
  obtain ⟨henv, hdec⟩ := roundtrip_aux m roomId k h iv hiv p
  rw [henc] at henv
  cases henv
  exact hdec

theorem encrypt_decrypt_roundtrip_witness :
    decryptMessage (EncryptionManager.mk none [("r", 5)])
      (btoa ([0, 0, 0, 0, 0, 0, 0, 0, 0, 0, 0, 0] ++
        subtleEncrypt 5 [0, 0, 0, 0, 0, 0, 0, 0, 0, 0, 0, 0] (textEncoder "hi"))) "r"
      = .ok "hi" :=
  encrypt_decrypt_roundtrip (EncryptionManager.mk none [("r", 5)]) "r" 5 rfl "hi"
    [0, 0, 0, 0, 0, 0, 0, 0, 0, 0, 0, 0] (by decide) _ rfl

/-- C3: cross-instance isolation / fail-closed decryption — when instance A
encrypts under its key and instance B holds a different key for the same
roomId, B's decrypt of A's envelope fails with `AuthenticationFailure` (a
rejected result, not a crash, not corrupted plaintext), and
`getDisplayContent` renders the fixed placeholder for that message. -/
theorem cross_instance_fail_closed (mA mB : EncryptionManager) (roomId : String)
    (kA kB : Nat) (hA : lookupAssoc mA.roomKeys roomId = some kA)
    (hB : lookupAssoc mB.roomKeys roomId = some kB) (hkey : kA ≠ kB)
    (p : String) (iv : List Nat) (hiv : iv.length = 12) (env : List Nat)
    (henc : encryptMessage mA iv p roomId = .ok env) (msg : ChatMessage)
    (hmsg : msg.content = env) (hflag : msg.encrypted = true) :
    decryptMessage mB env roomId = .error .AuthenticationFailure ∧
    getDisplayContent mB (some roomId) msg = decryptionFailedPlaceholder := by
  have henv := (roundtrip_aux mA roomId kA hA iv hiv p).1
  rw [henc] at henv
  cases henv
  have htake : (iv ++ subtleEncrypt kA iv (textEncoder p)).take 12 = iv := by
    rw [← hiv]; exact List.take_left iv _
  have hdrop : (iv ++ subtleEncrypt kA iv (textEncoder p)).drop 12 =
      subtleEncrypt kA iv (textEncoder p) := by
    rw [← hiv]; exact List.drop_left iv _
  have hdec : decryptMessage mB (btoa (iv ++ subtleEncrypt kA iv (textEncoder p))) roomId
      = .error .AuthenticationFailure := by
    simp only [decryptMessage, hB, atob_btoa, htake, hdrop,
      subtleDecrypt_wrong_key kA kB iv _ hkey]
  refine ⟨hdec, ?_⟩
  simp only [getDisplayContent, hflag, hmsg, hdec, if_pos]

theorem cross_instance_fail_closed_witness :
    decryptMessage (EncryptionManager.mk none [("r", 9)])
      (btoa ([0, 0, 0, 0, 0, 0, 0, 0, 0, 0, 0, 0] ++
        subtleEncrypt 5 [0, 0, 0, 0, 0, 0, 0, 0, 0, 0, 0, 0] (textEncoder "hi"))) "r"
      = .error .AuthenticationFailure ∧
    getDisplayContent (EncryptionManager.mk none [("r", 9)]) (some "r")
      (ChatMessage.mk "1"
        (btoa ([0, 0, 0, 0, 0, 0, 0, 0, 0, 0, 0, 0] ++
          subtleEncrypt 5 [0, 0, 0, 0, 0, 0, 0, 0, 0, 0, 0, 0] (textEncoder "hi")))
        "alice" "u1" 0 .user true)
      = decryptionFailedPlaceholder :=
  cross_instance_fail_closed (EncryptionManager.mk none [("r", 5)])
    (EncryptionManager.mk none [("r", 9)]) "r" 5 9 rfl rfl (by decide) "hi"
    [0, 0, 0, 0, 0, 0, 0, 0, 0, 0, 0, 0] (by decide) _ rfl
    (ChatMessage.mk "1"
      (btoa ([0, 0, 0, 0, 0, 0, 0, 0, 0, 0, 0, 0] ++
        subtleEncrypt 5 [0, 0, 0, 0, 0, 0, 0, 0, 0, 0, 0, 0] (textEncoder "hi")))
      "alice" "u1" 0 .user true) rfl rfl

/-- C4: nonce non-reuse — each `encryptMessage` call draws a fresh random
12-byte nonce, and for any two calls on the same room key whose drawn nonces
differ (in particular two encryptions of the same plaintext), the returned
envelopes differ, since the envelope embeds the nonce injectively. -/
theorem nonce_distinct_envelopes (m : EncryptionManager) (roomId : String)
    (k : Nat) (h : lookupAssoc m.roomKeys roomId = some k) (p₁ p₂ : String)
    (iv₁ iv₂ : List Nat) (h₁ : iv₁.length = 12) (h₂ : iv₂.length = 12)
    (hne : iv₁ ≠ iv₂) :
    encryptMessage m iv₁ p₁ roomId ≠ encryptMessage m iv₂ p₂ roomId := by
  intro heq
  rw [(roundtrip_aux m roomId k h iv₁ h₁ p₁).1,
    (roundtrip_aux m roomId k h iv₂ h₂ p₂).1] at heq
  apply hne
  have hcat := btoa_injective (Except.ok.inj heq)
  have h12 : iv₁.length = iv₂.length := by rw [h₁, h₂]
  have := congrArg (List.take iv₁.length) hcat
  rwa [List.take_left, h12, List.take_left] at this

theorem nonce_distinct_envelopes_witness :
    encryptMessage (EncryptionManager.mk none [("r", 5)])
        [0, 0, 0, 0, 0, 0, 0, 0, 0, 0, 0, 0] "hi" "r" ≠
      encryptMessage (EncryptionManager.mk none [("r", 5)])
        [0, 0, 0, 0, 0, 0, 0, 0, 0, 0, 0, 1] "hi" "r" :=
  nonce_distinct_envelopes (EncryptionManager.mk none [("r", 5)]) "r" 5 rfl
    "hi" "hi" [0, 0, 0, 0, 0, 0, 0, 0, 0, 0, 0, 0] [0, 0, 0, 0, 0, 0, 0, 0, 0, 0, 0, 1]
    (by decide) (by decide) (by decide)

/-- C5: for a roomId with no stored key, both `encryptMessage` and
`decryptMessage` throw `No room key found` (modelled `NoRoomKey`), for every
plaintext and every envelope, before doing any cipher work. -/
theorem noRoomKey_errors (m : EncryptionManager) (roomId : String)
    (h : lookupAssoc m.roomKeys roomId = none) (p : String) (iv env : List Nat) :
    encryptMessage m iv p roomId = .error .NoRoomKey ∧
    decryptMessage m env roomId = .error .NoRoomKey := by
  constructor
  · simp [encryptMessage, h]
  · simp [decryptMessage, h]

theorem noRoomKey_errors_witness :
    encryptMessage (EncryptionManager.mk none []) [0] "hi" "r" = .error .NoRoomKey ∧
    decryptMessage (EncryptionManager.mk none []) [3, 4] "r" = .error .NoRoomKey :=
  noRoomKey_errors (EncryptionManager.mk none []) "r" rfl "hi" [0] [3, 4]

/-- C6: whole-field replace on foreign snapshots — the `onUpdate` handler
sets the local users list to the snapshot's users, the local rooms list to
the snapshot's rooms, and (when a room is selected) the local message list
to the snapshot's list for that room (defaulting to `[]`), independent of
every previous local value; no per-record merge is performed. -/
theorem onUpdate_whole_field_replace (prev prevOther : LocalState) (data : AppData)
    (room : String) (nickname : String) :
    (applyDataUpdate (some room) nickname prev data).onlineUsers = data.users ∧
    (applyDataUpdate (some room) nickname prev data).chatRooms = data.rooms ∧
    (applyDataUpdate (some room) nickname prev data).messages =
      (lookupAssoc data.messages room).getD [] ∧
    (applyDataUpdate none nickname prev data).onlineUsers = data.users ∧
    (applyDataUpdate none nickname prev data).chatRooms = data.rooms ∧
    (applyDataUpdate (some room) nickname prev data).onlineUsers =
      (applyDataUpdate (some room) nickname prevOther data).onlineUsers ∧
    (applyDataUpdate (some room) nickname prev data).chatRooms =
      (applyDataUpdate (some room) nickname prevOther data).chatRooms ∧
    (applyDataUpdate (some room) nickname prev data).messages =
      (applyDataUpdate (some room) nickname prevOther data).messages :=
  ⟨rfl, rfl, rfl, rfl, rfl, rfl, rfl, rfl⟩

/-- C7 (counterexample): the cleanup replaces the stored `users` field with
the *local* `onlineUsers` list minus the departing user, so a user present
in the stored snapshot but absent from the local mirror (here `"u2"`/bob,
unrelated to the temporary account) is dropped rather than left unchanged:
the written-back snapshot has an empty users list. -/
theorem handleBeforeUnload_drops_foreign_user :
    (User.mk "u2" "bob" .online 0 none none false) ∈
      (AppData.mk
        [User.mk "u1" "tmp" .online 0 none none false,
         User.mk "u2" "bob" .online 0 none none false]
        [] [] [Account.mk "a1" "tmp" "" 0 none true]).users ∧
    (User.mk "u2" "bob" .online 0 none none false).id ≠ "u1" ∧
    (User.mk "u2" "bob" .online 0 none none false).id ≠
      (Account.mk "a1" "tmp" "" 0 none true).id ∧
    handleBeforeUnload (some (Account.mk "a1" "tmp" "" 0 none true)) "u1"
      [User.mk "u1" "tmp" .online 0 none none false]
      (some (AppData.mk
        [User.mk "u1" "tmp" .online 0 none none false,
         User.mk "u2" "bob" .online 0 none none false]
        [] [] [Account.mk "a1" "tmp" "" 0 none true])) =
      some (AppData.mk [] [] [] []) := by
  decide

/-- C7 (amended): provided the local `onlineUsers` mirror equals the stored
snapshot's users list, the session-end cleanup writes back a snapshot whose
accounts are exactly the stored accounts minus every account with the
temporary account's id, whose users are exactly the stored users minus every
user with the departing user's id, and whose rooms and messages are
untouched. -/
theorem handleBeforeUnload_purge (acc : Account) (hTemp : acc.isTemporary = true)
    (uid : String) (sd : AppData) :
    handleBeforeUnload (some acc) uid sd.users (some sd) =
      some (AppData.mk (sd.users.filter (fun u => u.id ≠ uid)) sd.rooms sd.messages
        (sd.accounts.filter (fun a => a.id ≠ acc.id))) ∧
    (∀ a : Account, a ∈ sd.accounts.filter (fun a => a.id ≠ acc.id) ↔
      (a ∈ sd.accounts ∧ a.id ≠ acc.id)) ∧
    (∀ u : User, u ∈ sd.users.filter (fun u => u.id ≠ uid) ↔
      (u ∈ sd.users ∧ u.id ≠ uid)) := by
  refine ⟨?_, ?_, ?_⟩
  · simp only [handleBeforeUnload, hTemp, if_pos]
    rfl
  · intro a; simp [List.mem_filter]
  · intro u; simp [List.mem_filter]

theorem handleBeforeUnload_purge_witness :
    handleBeforeUnload (some (Account.mk "a1" "tmp" "" 0 none true)) "u1"
      (AppData.mk
        [User.mk "u1" "tmp" .online 0 none none false,
         User.mk "u2" "bob" .online 0 none none false]
        [] [] [Account.mk "a1" "tmp" "" 0 none true,
               Account.mk "a2" "bob" "pw" 0 none false]).users
      (some (AppData.mk
        [User.mk "u1" "tmp" .online 0 none none false,
         User.mk "u2" "bob" .online 0 none none false]
        [] [] [Account.mk "a1" "tmp" "" 0 none true,
               Account.mk "a2" "bob" "pw" 0 none false])) =
      some (AppData.mk
        ((AppData.mk
          [User.mk "u1" "tmp" .online 0 none none false,
           User.mk "u2" "bob" .online 0 none none false]
          [] [] [Account.mk "a1" "tmp" "" 0 none true,
                 Account.mk "a2" "bob" "pw" 0 none false]).users.filter
          (fun u => u.id ≠ "u1"))
        [] []
        ((AppData.mk
          [User.mk "u1" "tmp" .online 0 none none false,
           User.mk "u2" "bob" .online 0 none none false]
          [] [] [Account.mk "a1" "tmp" "" 0 none true,
                 Account.mk "a2" "bob" "pw" 0 none false]).accounts.filter
          (fun a => a.id ≠ (Account.mk "a1" "tmp" "" 0 none true).id))) :=
  (handleBeforeUnload_purge (Account.mk "a1" "tmp" "" 0 none true) rfl "u1"
    (AppData.mk
      [User.mk "u1" "tmp" .online 0 none none false,
       User.mk "u2" "bob" .online 0 none none false]
      [] [] [Account.mk "a1" "tmp" "" 0 none true,
             Account.mk "a2" "bob" "pw" 0 none false])).1

/-- C8: `loadData` is total and non-fatal — it returns `null` when nothing
is stored and also when `JSON.parse` fails on the stored payload (the
`catch` turns the throw into `null`); it never throws past its boundary
(the model is a total function). -/
theorem loadData_total_nonfatal (decode : String → Option AppData) :
    loadData decode none = none ∧
    ∀ s : String, decode s = none → loadData decode (some s) = none := by
  refine ⟨rfl, fun s hs => ?_⟩
  simp [loadData, hs]

theorem loadData_total_nonfatal_witness :
    loadData (fun _ => none) (some "corrupt") = none :=
  (loadData_total_nonfatal (fun _ => none)).2 "corrupt" rfl

/-- C9 (counterexample): `close()` closes the `BroadcastChannel` but does
not null the `channel` field, and `saveData` writes `localStorage` before
touching the channel; so a `saveData` call after `close` still changes the
durable store (here: from empty to the serialized snapshot) — it is not a
no-op. -/
theorem save_after_close_writes_storage :
    (World.mk none []).storage = none ∧
    (saveData (close (RealTimeSync.mk (some (Channel.mk false false))))
        (fun _ => "snap") true (World.mk none []) emptyAppData).storage =
      some "snap" := by
  decide

/-- C9 (amended): after `close()`, `saveData` still writes the snapshot to
the durable store (when the storage write succeeds) but posts nothing on the
bus and raises no error (the posting throw is swallowed), and `onUpdate`
registers on the closed channel without error but its callback is never
invoked for any bus message. -/
theorem close_noops_bus_not_storage (sync : RealTimeSync)
    (serialize : AppData → String) (world : World) (data : AppData) :
    (saveData (close sync) serialize true world data).bus = world.bus ∧
    (saveData (close sync) serialize true world data).storage =
      some (serialize data) ∧
    ∀ msg : BusMessage, deliver (onUpdate (close sync)) msg = none := by
  obtain ⟨channel⟩ := sync
  cases channel with
  | none => exact ⟨rfl, rfl, fun msg => rfl⟩
  | some ch => exact ⟨rfl, rfl, fun msg => rfl⟩

/-- C10: persist-before-publish — in `saveData` the bus publish happens only
after `localStorage.setItem` succeeded: when the storage write throws, the
whole call leaves the world unchanged (no message posted, error swallowed by
the `catch`), and whenever the bus changed, the write had succeeded and the
store already holds the serialized snapshot. -/
theorem saveData_persist_before_publish (sync : RealTimeSync)
    (serialize : AppData → String) (world : World) (data : AppData) :
    saveData sync serialize false world data = world ∧
    ∀ storageOk : Bool,
      (saveData sync serialize storageOk world data).bus ≠ world.bus →
        storageOk = true ∧
        (saveData sync serialize storageOk world data).storage =
          some (serialize data) := by
  refine ⟨rfl, fun storageOk hbus => ?_⟩
  cases storageOk with
  | false => exact absurd rfl hbus
  | true =>
    refine ⟨rfl, ?_⟩
    obtain ⟨channel⟩ := sync
    cases channel with
    | none => rfl
    | some ch =>
      by_cases hc : ch.closed
      · simp [saveData, hc]
      · simp [saveData, hc]

theorem saveData_persist_before_publish_witness :
    true = true ∧
    (saveData (RealTimeSync.mk (some (Channel.mk false false))) (fun _ => "snap")
        true (World.mk none []) emptyAppData).storage = some "snap" :=
  (saveData_persist_before_publish (RealTimeSync.mk (some (Channel.mk false false)))
    (fun _ => "snap") (World.mk none []) emptyAppData).2 true (by decide)

end NoFeds
